import Mathlib

/-!
Shallow embedding of the quantitative analysis engine of the
asset-recommender repository: technical indicators, trend analysis,
momentum scoring, fundamentals volume-trend classification and the
per-symbol batch orchestration loop.  All prices and volumes are
modelled as rationals; the few places where JavaScript IEEE-754
semantics (NaN / Infinity from division by zero) are observable are
modelled explicitly with the `JSNum` type.
-/

namespace AssetRec

/-- One daily OHLCV bar (`PriceData` in `src/types`). `open` is a Lean
keyword, so the field is called `openPrice`. -/
structure PriceData where
  date : String
  openPrice : ℚ
  high : ℚ
  low : ℚ
  close : ℚ
  volume : ℚ
deriving DecidableEq

instance : Inhabited PriceData := ⟨⟨"", 0, 0, 0, 0, 0⟩⟩

/-- Arithmetic mean of a list of rationals (`reduce((s,v)=>s+v,0)/length`).
For the empty list this is `0/0 = 0` in `ℚ`; callers that need the
JavaScript `NaN` behaviour use `avgJS` instead. -/
def listMean (l : List ℚ) : ℚ := l.sum / (l.length : ℚ)

/-- Last close of a series, `closes[closes.length - 1]` (0 if empty). -/
def lastCloseD (pd : List PriceData) : ℚ := (pd.map PriceData.close).getLastD 0

/-- Modelled from the spec: `SMA.calculate({values, period})` of the
`technicalindicators` npm library — the list of arithmetic means of each
window of `period` consecutive values; empty when the series is shorter
than the window. -/
def smaSeries (period : ℕ) (values : List ℚ) : List ℚ :=
  (List.range (values.length + 1 - period)).map
    (fun i => listMean ((values.drop i).take period))

/-- Modelled from the spec: `EMA.calculate({values, period})` of the
`technicalindicators` npm library — exponential moving average seeded by
the simple mean of the first `period` values, then the recurrence
`ema = (v - ema) * (2/(period+1)) + ema`; empty when the series is
shorter than the period. -/
def emaSeries (period : ℕ) (values : List ℚ) : List ℚ :=
  if values.length < period then []
  else
    (values.drop period).scanl
      (fun ema v => (v - ema) * (2 / ((period : ℚ) + 1)) + ema)
      (listMean (values.take period))

/-- Embedding of `calculateEMA` from `src/lib/analysis/trends.ts` (lines 105–116):
same recurrence as `emaSeries` but returning only the final value, and
returning the last raw value when the series is shorter than the
period. -/
def calculateEMA (values : List ℚ) (period : ℕ) : ℚ :=
  if values.length < period then values.getLastD 0
  else
    (values.drop period).foldl
      (fun ema v => (v - ema) * (2 / ((period : ℚ) + 1)) + ema)
      (listMean (values.take period))

/-- Modelled from the spec: Wilder smoothing used by RSI/ADX in the
`technicalindicators` npm library — seed with the mean of the first
`period` values, then `avg = (avg*(period-1) + x)/period`; returns the
whole smoothed series (empty when input shorter than `period`). -/
def wilderSeries (period : ℕ) (xs : List ℚ) : List ℚ :=
  if xs.length < period then []
  else
    (xs.drop period).scanl
      (fun avg x => (avg * ((period : ℚ) - 1) + x) / period)
      (listMean (xs.take period))

/-- A rational square root approximation (monotone floor square root at
fixed precision).  Used only for the Bollinger-band standard deviation,
whose exact (irrational) value plays no role in any analysis-level
statement: every theorem treats the band values as opaque inputs. -/
def ratSqrt (q : ℚ) : ℚ :=
  if q ≤ 0 then 0
  else ((Nat.sqrt ((q * 1000000000000).floor.toNat) : ℚ)) / 1000000

/-- Modelled from the spec: last RSI(14) value per Wilder from the
`technicalindicators` npm library; `none` when there are fewer than
`period` price changes. -/
def rsiLastOpt (period : ℕ) (closes : List ℚ) : Option ℚ :=
  let diffs := (closes.zip (closes.drop 1)).map (fun p => p.2 - p.1)
  if diffs.length < period ∨ period = 0 then none
  else
    let gains := diffs.map (fun d => if 0 < d then d else 0)
    let losses := diffs.map (fun d => if d < 0 then -d else 0)
    let avgGain := (wilderSeries period gains).getLastD 0
    let avgLoss := (wilderSeries period losses).getLastD 0
    some (if avgLoss = 0 then 100 else 100 - 100 / (1 + avgGain / avgLoss))

/-- Modelled from the spec: last `MACD.calculate` output of the
`technicalindicators` npm library as `(MACD, signal, histogram)` —
line = EMA12 − EMA26 (aligned at the series end), signal = EMA9 of the
line, histogram = line − signal; the repository defaults each missing
component to 0 (`technicalIndicators.ts` lines 31–35, 103–105). -/
def macdLast (closes : List ℚ) : ℚ × ℚ × ℚ :=
  let e12 := emaSeries 12 closes
  let e26 := emaSeries 26 closes
  let line := ((e12.drop (e12.length - e26.length)).zip e26).map (fun p => p.1 - p.2)
  match line.getLast? with
  | none => (0, 0, 0)
  | some m =>
    let sigs := emaSeries 9 line
    let sig := sigs.getLastD 0
    (m, sig, if sigs.isEmpty then 0 else m - sig)

/-- Embedding of `SMA.calculate` guarded by the length checks of
`technicalIndicators.ts` lines 38–40: `none` models the `null` arm and
the empty-result arm together (`getLast?` of an empty list is `none`). -/
def smaPick (period : ℕ) (pd : List PriceData) : Option ℚ :=
  if period ≤ pd.length then (smaSeries period (pd.map PriceData.close)).getLast?
  else none

/-- The `sma20` selection, `technicalIndicators.ts` line 42. -/
def sma20val (pd : List PriceData) : ℚ := (smaPick 20 pd).getD (lastCloseD pd)

/-- The `sma50` selection, `technicalIndicators.ts` line 43. -/
def sma50val (pd : List PriceData) : ℚ := (smaPick 50 pd).getD (lastCloseD pd)

/-- The `sma200` selection with its fallback chain, `technicalIndicators.ts`
lines 45–47: SMA200 if available, else SMA50's value, else last close. -/
def sma200val (pd : List PriceData) : ℚ :=
  (smaPick 200 pd).getD ((smaPick 50 pd).getD (lastCloseD pd))

/-- Modelled from the spec: last Bollinger(20, 2σ) triple
`(upper, middle, lower)` of the `technicalindicators` npm library;
middle = SMA20 of the trailing window, bands at ±2 standard deviations
(rational approximation, see `ratSqrt`).  The repository defaults all
three to the last close when no value exists. -/
def bollingerLast (pd : List PriceData) : ℚ × ℚ × ℚ :=
  let closes := pd.map PriceData.close
  if 20 ≤ closes.length then
    let w := closes.drop (closes.length - 20)
    let mid := listMean w
    let sd := ratSqrt (listMean (w.map (fun x => (x - mid) ^ 2)))
    (mid + 2 * sd, mid, mid - 2 * sd)
  else (lastCloseD pd, lastCloseD pd, lastCloseD pd)

/-- Modelled from the spec: last Stochastic(14,3) `(k, d)` pair of the
`technicalindicators` npm library — %K from the close's position in the
trailing 14-bar high/low range, %D the 3-period SMA of %K; the
repository defaults to `(50, 50)` when no value exists. -/
def stochasticLast (pd : List PriceData) : ℚ × ℚ :=
  let n := pd.length
  if 14 ≤ n then
    let ks := (List.range (n + 1 - 14)).map (fun i =>
      let wh := ((pd.map PriceData.high).drop i).take 14
      let wl := ((pd.map PriceData.low).drop i).take 14
      let c := (pd.map PriceData.close).getD (i + 13) 0
      let hh := wh.foldl max (wh.headD 0)
      let ll := wl.foldl min (wl.headD 0)
      (c - ll) / (hh - ll) * 100)
    (ks.getLastD 50, (smaSeries 3 ks).getLastD 0)
  else (50, 50)

/-- Modelled from the spec: last ADX(14) value of the
`technicalindicators` npm library — Wilder-smoothed true range and
directional movements, DX from the DI spread, ADX a Wilder average of
DX; `none` when the series is too short to produce a value. -/
def adxLastOpt (pd : List PriceData) : Option ℚ :=
  let pairs := pd.zip (pd.drop 1)
  let trs := pairs.map (fun p =>
    max (p.2.high - p.2.low) (max |p.2.high - p.1.close| |p.2.low - p.1.close|))
  let pdms := pairs.map (fun p =>
    let up := p.2.high - p.1.high
    let dn := p.1.low - p.2.low
    if up > dn ∧ 0 < up then up else 0)
  let ndms := pairs.map (fun p =>
    let up := p.2.high - p.1.high
    let dn := p.1.low - p.2.low
    if dn > up ∧ 0 < dn then dn else 0)
  let smTR := wilderSeries 14 trs
  let smP := wilderSeries 14 pdms
  let smN := wilderSeries 14 ndms
  let dxs := ((smP.zip smN).zip smTR).map (fun t =>
    let dip := t.1.1 / t.2 * 100
    let din := t.1.2 / t.2 * 100
    if dip + din = 0 then 0 else |dip - din| / (dip + din) * 100)
  (wilderSeries 14 dxs).getLast?

/-- One `calculateOBV` step for one adjacent pair of bars
(`technicalIndicators.ts` lines 133–143): add the volume on a rising
close, subtract it on a falling close, no change on a tie. -/
def obvStep (prev cur : PriceData) : ℚ :=
  if cur.close > prev.close then cur.volume
  else if cur.close < prev.close then -cur.volume
  else 0

/-- Accumulator loop of `calculateOBV` (`for i = 1; i < length`). -/
def obvGo : PriceData → List PriceData → ℚ → ℚ
  | _, [], acc => acc
  | prev, cur :: rest, acc => obvGo cur rest (acc + obvStep prev cur)

/-- Embedding of `calculateOBV` from `src/lib/analysis/technicalIndicators.ts`
(lines 131–146): cumulative signed volume seeded at 0, iterated from the
second bar onward. -/
def calculateOBV : List PriceData → ℚ
  | [] => 0
  | p :: rest => obvGo p rest 0

/-- The `sma` block of `TechnicalIndicators`. -/
structure SmaBundle where
  sma20 : ℚ
  sma50 : ℚ
  sma200 : ℚ
deriving DecidableEq

/-- The `ema` block of `TechnicalIndicators`. -/
structure EmaBundle where
  ema12 : ℚ
  ema26 : ℚ
deriving DecidableEq

/-- The `macd` block of `TechnicalIndicators`. -/
structure MacdBundle where
  MACD : ℚ
  signal : ℚ
  histogram : ℚ
deriving DecidableEq

/-- The `bollingerBands` block of `TechnicalIndicators`. -/
structure BollingerBundle where
  upper : ℚ
  middle : ℚ
  lower : ℚ
deriving DecidableEq

/-- The `stochastic` block of `TechnicalIndicators`. -/
structure StochasticBundle where
  k : ℚ
  d : ℚ
deriving DecidableEq

/-- The `TechnicalIndicators` snapshot returned by the engine. -/
structure TechnicalIndicators where
  rsi : ℚ
  macd : MacdBundle
  sma : SmaBundle
  ema : EmaBundle
  bollingerBands : BollingerBundle
  stochastic : StochasticBundle
  adx : ℚ
  obv : ℚ
  volumeSMA : ℚ
deriving DecidableEq

/-- Embedding of `calculateTechnicalIndicators` from
`src/lib/analysis/technicalIndicators.ts` (lines 4–129): throws (here:
`Except.error`) when fewer than 50 bars are supplied, otherwise builds
the indicator bundle, applying each per-indicator default of the source
(`rsi → 50`, missing MACD parts → 0, SMA fallback chain, EMA → last
close, stochastic → (50,50), falsy ADX → 25, volume SMA → last
volume). -/
def calculateTechnicalIndicators (pd : List PriceData) : Except String TechnicalIndicators :=
  if pd.length < 50 then
    .error ("Insufficient data points. Need at least 50 days of data, got " ++
      toString pd.length ++ ".")
  else
    let closes := pd.map PriceData.close
    let volumes := pd.map PriceData.volume
    let macdTriple := macdLast closes
    let bb := bollingerLast pd
    let st := stochasticLast pd
    .ok
      { rsi := (rsiLastOpt 14 closes).getD 50
        macd := ⟨macdTriple.1, macdTriple.2.1, macdTriple.2.2⟩
        sma := ⟨sma20val pd, sma50val pd, sma200val pd⟩
        ema := ⟨(emaSeries 12 closes).getLastD (lastCloseD pd),
                (emaSeries 26 closes).getLastD (lastCloseD pd)⟩
        bollingerBands := ⟨bb.1, bb.2.1, bb.2.2⟩
        stochastic := ⟨st.1, st.2⟩
        adx := match adxLastOpt pd with
               | some a => if a = 0 then 25 else a
               | none => 25
        obv := calculateOBV pd
        volumeSMA := (smaSeries 20 volumes).getLastD (volumes.getLastD 0) }

/-- Trend direction classification values. -/
inductive TrendDirection where
  | uptrend
  | downtrend
  | sideways
deriving DecidableEq

/-- Moving-average crossover classification values. -/
inductive MACrossover where
  | bullish
  | bearish
  | none
deriving DecidableEq

/-- Direction parameter of `calculateTrendStrength`. -/
inductive UpDown where
  | up
  | down
deriving DecidableEq

/-- Result of `analyzeTrend`. -/
structure TrendAnalysis where
  direction : TrendDirection
  strength : ℚ
  reversalSignal : Bool
  movingAverageCrossover : MACrossover
deriving DecidableEq

/-- Embedding of `calculateTrendStrength` from `src/lib/analysis/trends.ts`
(lines 58–81): percent move over the trailing 20 closes (sign-adjusted
to the trend direction) plus a consistency bonus, capped at 100. -/
def calculateTrendStrength (pd : List PriceData) (dir : UpDown) : ℚ :=
  let recent := (pd.drop (pd.length - 20)).map PriceData.close
  let firstPrice := recent.headD 0
  let lastPrice := recent.getLastD 0
  let priceChange :=
    match dir with
    | .up => (lastPrice - firstPrice) / firstPrice * 100
    | .down => (firstPrice - lastPrice) / firstPrice * 100
  let consistentDays :=
    ((recent.zip (recent.drop 1)).filter (fun p =>
      match dir with
      | .up => decide (p.1 ≤ p.2)
      | .down => decide (p.2 ≤ p.1))).length
  let consistency := (consistentDays : ℚ) / ((recent.length : ℚ) - 1) * 100
  min 100 (priceChange * 2 + consistency * 0.5)

/-- Embedding of `detectReversal` from `src/lib/analysis/trends.ts` (lines 83–103). -/
def detectReversal (pd : List PriceData) (ti : TechnicalIndicators) : Bool :=
  let recent := (pd.drop (pd.length - 14)).map PriceData.close
  let priceTrendUp := recent.getLastD 0 > recent.headD 0
  if priceTrendUp ∧ ti.rsi > 70 ∧ ti.macd.histogram < 0 then true
  else if ¬priceTrendUp ∧ ti.rsi < 30 ∧ ti.macd.histogram > 0 then true
  else false

/-- Embedding of `analyzeTrend` from `src/lib/analysis/trends.ts` (lines 3–56):
crossover detection against the series with its last bar dropped, then
the strict moving-average ordering test for the direction, with
sideways strength fixed at 25 and a final clamp to [0,100]. -/
def analyzeTrend (ti : TechnicalIndicators) (pd : List PriceData) : TrendAnalysis :=
  let currentPrice := (pd.getLastD default).close
  let movingAverageCrossover :=
    if 2 ≤ pd.length then
      let prevEma12 := calculateEMA (pd.dropLast.map PriceData.close) 12
      let prevEma26 := calculateEMA (pd.dropLast.map PriceData.close) 26
      if ti.ema.ema12 > ti.ema.ema26 ∧ prevEma12 ≤ prevEma26 then MACrossover.bullish
      else if ti.ema.ema12 < ti.ema.ema26 ∧ prevEma12 ≥ prevEma26 then MACrossover.bearish
      else MACrossover.none
    else MACrossover.none
  let dirStrength :=
    if currentPrice > ti.sma.sma20 ∧ ti.sma.sma20 > ti.sma.sma50 ∧ ti.sma.sma50 > ti.sma.sma200 then
      (TrendDirection.uptrend, calculateTrendStrength pd UpDown.up)
    else if currentPrice < ti.sma.sma20 ∧ ti.sma.sma20 < ti.sma.sma50 ∧ ti.sma.sma50 < ti.sma.sma200 then
      (TrendDirection.downtrend, calculateTrendStrength pd UpDown.down)
    else
      (TrendDirection.sideways, (25 : ℚ))
  { direction := dirStrength.1
    strength := max 0 (min 100 dirStrength.2)
    reversalSignal := detectReversal pd ti
    movingAverageCrossover := movingAverageCrossover }

/-- JavaScript IEEE-754 double restricted to the values reachable in
`analyzeFundamentals`: finite rationals, the two infinities and NaN. -/
inductive JSNum where
  | fin : ℚ → JSNum
  | posInf : JSNum
  | negInf : JSNum
  | nan : JSNum
deriving DecidableEq

/-- JavaScript subtraction on `JSNum`. -/
def jsub : JSNum → JSNum → JSNum
  | .nan, _ => .nan
  | .posInf, y =>
    match y with
    | .nan => .nan
    | .posInf => .nan
    | _ => .posInf
  | .negInf, y =>
    match y with
    | .nan => .nan
    | .negInf => .nan
    | _ => .negInf
  | .fin a, y =>
    match y with
    | .nan => .nan
    | .posInf => .negInf
    | .negInf => .posInf
    | .fin b => .fin (a - b)

/-- JavaScript division on `JSNum` (zero treated as `+0`). -/
def jdiv : JSNum → JSNum → JSNum
  | .nan, _ => .nan
  | _, .nan => .nan
  | .fin a, .fin b =>
    if b = 0 then (if a = 0 then .nan else if 0 < a then .posInf else .negInf)
    else .fin (a / b)
  | .fin _, _ => .fin 0
  | .posInf, .fin b => if b < 0 then .negInf else .posInf
  | .negInf, .fin b => if b < 0 then .posInf else .negInf
  | _, _ => .nan

/-- JavaScript multiplication of a `JSNum` by a finite constant. -/
def jmulC : JSNum → ℚ → JSNum
  | .nan, _ => .nan
  | .fin a, c => .fin (a * c)
  | .posInf, c => if 0 < c then .posInf else if c < 0 then .negInf else .nan
  | .negInf, c => if 0 < c then .negInf else if c < 0 then .posInf else .nan

/-- JavaScript `x > q` for a finite threshold (false on NaN). -/
def jgtB : JSNum → ℚ → Bool
  | .fin a, q => a > q
  | .posInf, _ => true
  | .negInf, _ => false
  | .nan, _ => false

/-- JavaScript `x < q` for a finite threshold (false on NaN). -/
def jltB : JSNum → ℚ → Bool
  | .fin a, q => a < q
  | .posInf, _ => false
  | .negInf, _ => true
  | .nan, _ => false

/-- JavaScript `reduce((s,v)=>s+v,0)/length`: NaN (`0/0`) on the empty
list. -/
def avgJS (l : List ℚ) : JSNum :=
  if l.isEmpty then .nan else .fin (l.sum / (l.length : ℚ))

/-- JavaScript addition on `JSNum`. -/
def jadd : JSNum → JSNum → JSNum
  | .nan, _ => .nan
  | .posInf, y =>
    match y with
    | .nan => .nan
    | .negInf => .nan
    | _ => .posInf
  | .negInf, y =>
    match y with
    | .nan => .nan
    | .posInf => .nan
    | _ => .negInf
  | .fin a, y =>
    match y with
    | .nan => .nan
    | .posInf => .posInf
    | .negInf => .negInf
    | .fin b => .fin (a + b)

/-- The clamp `Math.max(0, Math.min(100, x))` on `JSNum`: the identity
on NaN (JavaScript `min`/`max` propagate NaN), 100 on `+Infinity`, 0 on
`-Infinity`. -/
def jclamp0to100 : JSNum → JSNum
  | .fin q => .fin (max 0 (min 100 q))
  | .posInf => .fin 100
  | .negInf => .fin 0
  | .nan => .nan

/-- The `breakdown` block of `MomentumScore`.  The `technical` blend
contains the Bollinger sub-score, whose JavaScript value can be NaN, so
it is a `JSNum`; the other two components are always finite. -/
structure MomentumBreakdown where
  technical : JSNum
  trend : ℚ
  volume : ℚ
deriving DecidableEq

/-- Result of `calculateMomentumScore`.  `score` inherits the possible
NaN of the Bollinger sub-score through the technical blend; the
short/long-term components are always finite. -/
structure MomentumScore where
  score : JSNum
  shortTerm : ℚ
  longTerm : ℚ
  breakdown : MomentumBreakdown
deriving DecidableEq

/-- The clamp `Math.max(0, Math.min(100, x))`, the output clamp used throughout. -/
def clamp0to100 (x : ℚ) : ℚ := max 0 (min 100 x)

/-- RSI sub-score of `calculateMomentumScore`
(`src/lib/analysis/momentum.ts` lines 13–17). -/
def rsiScore (rsi : ℚ) : ℚ :=
  if rsi < 30 then 100 - rsi / 30 * 50
  else if rsi > 70 then 50 - (rsi - 70) / 30 * 50
  else 50 + (50 - |rsi - 50|) / 20 * 30

/-- MACD sub-score of `calculateMomentumScore` (`momentum.ts` lines
20–22). -/
def macdScore (macdLine signal histogram currentPrice : ℚ) : ℚ :=
  if macdLine > signal then 50 + min 50 (histogram / currentPrice * 10000)
  else 50 - min 50 (|histogram / currentPrice| * 10000)

/-- SMA sub-score of `calculateMomentumScore` (`momentum.ts` lines
25–31). -/
def smaScore (currentPrice sma20 sma50 sma200 : ℚ) : ℚ :=
  if currentPrice > sma20 then
    if currentPrice > sma50 then
      if currentPrice > sma200 then 100 else 75
    else 50
  else 25

/-- Bollinger sub-score of `calculateMomentumScore` (`momentum.ts`
lines 34–40), with JavaScript division semantics: when
`upper = lower = currentPrice` (e.g. a perfectly flat window)
`bbPosition` is `0/0 = NaN`, both band comparisons are false, and the
sub-score is NaN. -/
def bbScore (currentPrice upper lower : ℚ) : JSNum :=
  let bbPosition := jdiv (JSNum.fin (currentPrice - lower)) (JSNum.fin (upper - lower))
  if jltB bbPosition 0.2 then JSNum.fin 100
  else if jgtB bbPosition 0.8 then JSNum.fin 0
  else jadd (JSNum.fin 50) (jmulC (jsub (JSNum.fin 0.5) bbPosition) 100)

/-- Stochastic sub-score of `calculateMomentumScore` (`momentum.ts`
lines 43–47). -/
def stochasticScore (k : ℚ) : ℚ :=
  if k < 20 then 100
  else if k > 80 then 0
  else 50 + (50 - k) * 0.625

/-- ADX sub-score of `calculateMomentumScore` (`momentum.ts` lines
50–52). -/
def adxScore (adx : ℚ) : ℚ :=
  if adx > 25 then min 100 (50 + (adx - 25) * 2)
  else adx * 2

/-- Volume sub-score of `calculateMomentumScore` (`momentum.ts` lines
62–65): trailing 5-bar average volume versus the 20-bar volume SMA. -/
def volumeScore (recentVolume volumeSMA : ℚ) : ℚ :=
  if recentVolume > volumeSMA then 75 else 25

/-- Embedding of `calculateMomentumScore` from `src/lib/analysis/momentum.ts`
(lines 3–94): weighted blend of the sub-scores plus short/long-term
price-change momentum, all outputs clamped to [0,100].  The technical
blend is summed left to right in `JSNum` because the Bollinger
sub-score can be NaN; the remaining sub-scores are finite rationals. -/
def calculateMomentumScore (ti : TechnicalIndicators) (pd : List PriceData) : MomentumScore :=
  let currentPrice := (pd.getLastD default).close
  let price20DaysAgo := (pd.getD (pd.length - 20) default).close
  let price50DaysAgo := (pd.getD (pd.length - 50) default).close
  let rsiS := rsiScore ti.rsi
  let macdS := macdScore ti.macd.MACD ti.macd.signal ti.macd.histogram currentPrice
  let smaS := smaScore currentPrice ti.sma.sma20 ti.sma.sma50 ti.sma.sma200
  let bbS := bbScore currentPrice ti.bollingerBands.upper ti.bollingerBands.lower
  let stochS := stochasticScore ti.stochastic.k
  let adxS := adxScore ti.adx
  let shortTermMomentum := (currentPrice - price20DaysAgo) / price20DaysAgo * 100
  let longTermMomentum := (currentPrice - price50DaysAgo) / price50DaysAgo * 100
  let shortTermScore := 50 + min 50 (max (-50) (shortTermMomentum * 5))
  let longTermScore := 50 + min 50 (max (-50) (longTermMomentum * 2))
  let recentVolume := ((pd.drop (pd.length - 5)).map PriceData.volume).sum / 5
  let volumeS := volumeScore recentVolume ti.volumeSMA
  let technicalScore :=
    jadd (jadd (jadd (jadd (JSNum.fin (rsiS * 0.15 + macdS * 0.20 + smaS * 0.20))
      (jmulC bbS 0.10)) (JSNum.fin (stochS * 0.10))) (JSNum.fin (adxS * 0.10)))
      (JSNum.fin (volumeS * 0.15))
  let overallScore :=
    jadd (jadd (jmulC technicalScore 0.6) (JSNum.fin (shortTermScore * 0.25)))
      (JSNum.fin (longTermScore * 0.15))
  { score := jclamp0to100 overallScore
    shortTerm := clamp0to100 shortTermScore
    longTerm := clamp0to100 longTermScore
    breakdown :=
      { technical := jclamp0to100 technicalScore
        trend := clamp0to100 adxS
        volume := clamp0to100 volumeS } }

/-- Volume trend classification values. -/
inductive VolumeTrend where
  | increasing
  | decreasing
  | stable
deriving DecidableEq

/-- Result of `analyzeFundamentals`. -/
structure FundamentalData where
  peRatio : Option ℚ
  marketCap : Option ℚ
  priceToBook : Option ℚ
  volumeTrend : VolumeTrend
  averageVolume : JSNum
deriving DecidableEq

/-- Embedding of `analyzeFundamentals` from `src/lib/data/yahooFinance.ts`
(lines 164–195): compares the trailing 20-bar average volume
(`slice(-20)`) against the prior 20-bar average (`slice(-40,-20)`) and
classifies the percent change against the ±10 thresholds; JavaScript
division semantics (NaN / Infinity) are modelled explicitly. -/
def analyzeFundamentals (pd : List PriceData) (marketCap peRatio priceToBook : Option ℚ) :
    FundamentalData :=
  let n := pd.length
  let recentVolumes := (pd.map PriceData.volume).drop (n - 20)
  let olderVolumes := ((pd.map PriceData.volume).drop (n - 40)).take ((n - 20) - (n - 40))
  let recentAvgVolume := avgJS recentVolumes
  let olderAvgVolume := avgJS olderVolumes
  let volumeChangePercent := jmulC (jdiv (jsub recentAvgVolume olderAvgVolume) olderAvgVolume) 100
  let volumeTrend :=
    if jgtB volumeChangePercent 10 then VolumeTrend.increasing
    else if jltB volumeChangePercent (-10) then VolumeTrend.decreasing
    else VolumeTrend.stable
  { peRatio := peRatio
    marketCap := marketCap
    priceToBook := priceToBook
    volumeTrend := volumeTrend
    averageVolume := recentAvgVolume }

/-- The per-symbol orchestration loop of the API routes
(`src/app/api/stocks/india/route.ts` lines 36–46 and the crypto route):
analyze each watch-list entry in order, catching a failed analysis and
continuing with the remaining symbols. -/
def batchAnalyze {σ α ε : Type} (analyzeOne : σ → Except ε α) : List σ → List α
  | [] => []
  | s :: rest =>
    match analyzeOne s with
    | .ok a => a :: batchAnalyze analyzeOne rest
    | .error _ => batchAnalyze analyzeOne rest

/-- Specification-side reformulation of `calculateOBV`: the sum of the
per-pair signed volumes over adjacent bars. -/
def obvPairSum (pd : List PriceData) : ℚ :=
  ((pd.zip (pd.drop 1)).map (fun p => obvStep p.1 p.2)).sum

/-- Specification-side trailing 20-bar average volume (the recent
window of `analyzeFundamentals` when at least 40 bars exist). -/
def trailingAvgVolume (pd : List PriceData) : ℚ :=
  ((pd.map PriceData.volume).drop (pd.length - 20)).sum / 20

/-- Specification-side prior 20-bar average volume (the older window of
`analyzeFundamentals` when at least 40 bars exist). -/
def priorAvgVolume (pd : List PriceData) : ℚ :=
  (((pd.map PriceData.volume).drop (pd.length - 40)).take 20).sum / 20

/-- Specification-side
`volumeChangePct = (recentAvg − olderAvg) / olderAvg × 100`. -/
def volumeChangePct (pd : List PriceData) : ℚ :=
  (trailingAvgVolume pd - priorAvgVolume pd) / priorAvgVolume pd * 100

/-- A constant 50-bar series used to instantiate universally quantified
results on a concrete input. -/
def pdFlat50 : List PriceData := List.replicate 50 ⟨"", 1, 1, 1, 1, 1⟩

/-- A concrete indicator bundle (all moving averages 0) used to
instantiate universally quantified results. -/
def tiZero : TechnicalIndicators :=
  { rsi := 50
    macd := ⟨0, 0, 0⟩
    sma := ⟨0, 0, 0⟩
    ema := ⟨0, 0⟩
    bollingerBands := ⟨0, 0, 0⟩
    stochastic := ⟨50, 50⟩
    adx := 25
    obv := 0
    volumeSMA := 0 }

/-- A 5-bar series of strictly increasing closes with volume 10. -/
def pdRising5 : List PriceData :=
  [⟨"", 1, 1, 1, 1, 10⟩, ⟨"", 2, 2, 2, 2, 10⟩, ⟨"", 3, 3, 3, 3, 10⟩,
   ⟨"", 4, 4, 4, 4, 10⟩, ⟨"", 5, 5, 5, 5, 10⟩]

/-- A 27-bar series: 26 flat bars at 100 followed by a jump to 200, so
EMA12 crosses EMA26 from below/equal to above exactly at the last bar. -/
def pdCross : List PriceData :=
  List.replicate 26 ⟨"", 100, 100, 100, 100, 1⟩ ++ [⟨"", 200, 200, 200, 200, 1⟩]

/-- Indicator bundle whose EMA fields are the EMAs of `pdCross`. -/
def tiCross : TechnicalIndicators :=
  { tiZero with
    ema := ⟨calculateEMA (pdCross.map PriceData.close) 12,
            calculateEMA (pdCross.map PriceData.close) 26⟩ }

/-- A 40-bar series whose older 20-bar volume window averages 10 and
whose recent window averages 100. -/
def pdVol40 : List PriceData :=
  List.replicate 20 ⟨"", 1, 1, 1, 1, 10⟩ ++ List.replicate 20 ⟨"", 1, 1, 1, 1, 100⟩

/-- A 5-bar series, short enough that the older volume window of
`analyzeFundamentals` is empty. -/
def pdShort5 : List PriceData := List.replicate 5 ⟨"", 1, 1, 1, 1, 10⟩

/-- A concrete fallible per-symbol analysis: symbol 1 fails, every other
symbol `n` succeeds with value `10 * n`. -/
def probeAnalysis (n : ℕ) : Except String ℕ :=
  if n = 1 then .error "boom" else .ok (10 * n)

/-- C1: on any series accepted by the engine (≥ 50 bars), `analyzeTrend`
classifies `uptrend` exactly on the strict ordering
lastClose > SMA20 > SMA50 > SMA200, `downtrend` exactly on the reverse
strict ordering, `sideways` in every other case, and a sideways trend
reports strength 25. -/
theorem claim_C1_trend_direction (ti : TechnicalIndicators) (pd : List PriceData)
    (h : 50 ≤ pd.length) :
    ((analyzeTrend ti pd).direction = TrendDirection.uptrend ↔
      (pd.getLastD default).close > ti.sma.sma20 ∧ ti.sma.sma20 > ti.sma.sma50 ∧
        ti.sma.sma50 > ti.sma.sma200) ∧
    ((analyzeTrend ti pd).direction = TrendDirection.downtrend ↔
      (pd.getLastD default).close < ti.sma.sma20 ∧ ti.sma.sma20 < ti.sma.sma50 ∧
        ti.sma.sma50 < ti.sma.sma200) ∧
    ((analyzeTrend ti pd).direction = TrendDirection.sideways ↔
      ¬((pd.getLastD default).close > ti.sma.sma20 ∧ ti.sma.sma20 > ti.sma.sma50 ∧
          ti.sma.sma50 > ti.sma.sma200) ∧
      ¬((pd.getLastD default).close < ti.sma.sma20 ∧ ti.sma.sma20 < ti.sma.sma50 ∧
          ti.sma.sma50 < ti.sma.sma200)) ∧
    ((analyzeTrend ti pd).direction = TrendDirection.sideways →
      (analyzeTrend ti pd).strength = 25) := by
  simp only [analyzeTrend]
  split_ifs with h1 h2 <;> simp_all <;> intros <;> linarith

/-- Witness for C1 at a concrete 50-bar series and indicator bundle. -/
theorem claim_C1_trend_direction_witness :
    (analyzeTrend tiZero pdFlat50).direction = TrendDirection.sideways ∧
    (analyzeTrend tiZero pdFlat50).strength = 25 := by
  obtain ⟨h1, h2, h3, h4⟩ :=
    claim_C1_trend_direction tiZero pdFlat50 (by decide)
  have hs : (analyzeTrend tiZero pdFlat50).direction = TrendDirection.sideways :=
    h3.mpr (by decide)
  exact ⟨hs, h4 hs⟩

/-- C2: `calculateTechnicalIndicators` fails with the insufficient-data
error exactly when the series has fewer than 50 bars, and returns an
indicator bundle exactly when it has at least 50 bars (so a 50-bar
series never raises). -/
theorem claim_C2_insufficient_data (pd : List PriceData) :
    ((∃ e, calculateTechnicalIndicators pd = Except.error e) ↔ pd.length < 50) ∧
    ((∃ b, calculateTechnicalIndicators pd = Except.ok b) ↔ 50 ≤ pd.length) := by
  unfold calculateTechnicalIndicators
  split_ifs with h <;> simp_all

/-- The SMA(50) window series is nonempty whenever at least 50 bars
exist, so the 50-bar pick is a `some`. -/
theorem smaPick_50_isSome (pd : List PriceData) (h : 50 ≤ pd.length) :
    smaPick 50 pd = (smaSeries 50 (pd.map PriceData.close)).getLast? := by
  unfold smaPick
  rw [if_pos h]

/-- C3: below 200 bars the SMA200 selection falls back to the SMA50
selection (which below 50 bars itself falls back to the last close),
and in the returned bundle of an accepted sub-200-bar series the SMA200
field equals the SMA50 field. -/
theorem claim_C3_sma200_fallback (pd : List PriceData) (h : pd.length < 200) :
    sma200val pd = sma50val pd ∧
    (pd.length < 50 → sma50val pd = lastCloseD pd ∧ sma200val pd = lastCloseD pd) ∧
    (∀ b, calculateTechnicalIndicators pd = Except.ok b → b.sma.sma200 = b.sma.sma50) := by
  have h200 : smaPick 200 pd = none := by
    unfold smaPick
    rw [if_neg]
    omega
  have hmain : sma200val pd = sma50val pd := by
    unfold sma200val sma50val
    rw [h200]
    rfl
  refine ⟨hmain, fun h50 => ?_, fun b hb => ?_⟩
  · have h50n : smaPick 50 pd = none := by
      unfold smaPick
      rw [if_neg]
      omega
    have : sma50val pd = lastCloseD pd := by
      unfold sma50val
      rw [h50n]
      rfl
    exact ⟨this, hmain.trans this⟩
  · unfold calculateTechnicalIndicators at hb
    split_ifs at hb with hlt
    cases hb
    exact hmain

/-- Witness for C3 at a concrete 50-bar series. -/
theorem claim_C3_sma200_fallback_witness :
    sma200val pdFlat50 = sma50val pdFlat50 :=
  (claim_C3_sma200_fallback pdFlat50 (by decide)).1

/-- The OBV accumulator loop adds exactly the per-pair signed volumes. -/
theorem obvGo_eq_sum (rest : List PriceData) :
    ∀ (prev : PriceData) (acc : ℚ),
      obvGo prev rest acc =
        acc + (((prev :: rest).zip rest).map (fun p => obvStep p.1 p.2)).sum := by
  induction rest with
  | nil => intro prev acc; simp [obvGo]
  | cons cur rest ih =>
    intro prev acc
    simp only [obvGo, List.zip_cons_cons, List.map_cons, List.sum_cons, ih cur]
    ring

/-- OBV of a chain of strictly increasing closes sums the volumes of
all bars after the first. -/
theorem obvPairSum_of_chain (pd : List PriceData)
    (h : List.Chain' (fun a b => a.close < b.close) pd) :
    obvPairSum pd = ((pd.drop 1).map PriceData.volume).sum := by
  match pd with
  | [] => rfl
  | [p] => rfl
  | p :: q :: rest =>
    rw [List.chain'_cons] at h
    have ih := obvPairSum_of_chain (q :: rest) h.2
    simp only [obvPairSum, List.drop_one, List.tail_cons, List.zip_cons_cons,
      List.map_cons, List.sum_cons] at ih ⊢
    rw [obvStep, if_pos h.1, ih]

/-- C4: `calculateOBV` is the cumulative signed volume seeded at 0 over
bars from the second onward (add on a rising close, subtract on a
falling close, unchanged on a tie), and on a series of strictly
increasing closes it equals the sum of the volumes of all bars from the
second onward. -/
theorem claim_C4_obv (pd : List PriceData) :
    calculateOBV pd = obvPairSum pd ∧
    (List.Chain' (fun a b => a.close < b.close) pd →
      calculateOBV pd = ((pd.drop 1).map PriceData.volume).sum) := by
  have hmain : calculateOBV pd = obvPairSum pd := by
    match pd with
    | [] => rfl
    | p :: rest =>
      simp [calculateOBV, obvGo_eq_sum, obvPairSum]
  exact ⟨hmain, fun hchain => hmain.trans (obvPairSum_of_chain pd hchain)⟩

/-- Witness for C4 on a concrete strictly increasing 5-bar series. -/
theorem claim_C4_obv_witness :
    calculateOBV pdRising5 = ((pdRising5.drop 1).map PriceData.volume).sum :=
  (claim_C4_obv pdRising5).2 (by norm_num [pdRising5, List.chain'_cons])

/-- C5 counterexample: at the neutral RSI value 50 the RSI sub-score of
`calculateMomentumScore` is 125, outside [0,100], refuting the claim
that every sub-score lies in [0,100]. -/
theorem claim_C5_counterexample : rsiScore 50 = 125 ∧ ¬rsiScore 50 ≤ 100 := by
  norm_num [rsiScore]

/-- C5 (amended): under bundle-consistent inputs (RSI in [0,100], ADX
nonnegative, histogram = MACD − signal, positive price) the MACD, SMA,
Stochastic, ADX and volume sub-scores of `calculateMomentumScore` lie
in [0,100]; the Bollinger sub-score is a finite value in [0,100]
whenever the band width is nonzero, but on a degenerate window with
`upper = lower = currentPrice` (e.g. a perfectly flat series) it is
NaN; the RSI sub-score lies in [0,100] in the oversold (<30) and
overbought (>70) regions, but on the neutral band 30–70 it lies in
[95,125]. -/
theorem claim_C5_subscore_bounds
    (rsi macdLine signal histogram currentPrice sma20 sma50 sma200 : ℚ)
    (upper lower k adx recentVolume volumeSMA : ℚ)
    (hrsi0 : 0 ≤ rsi) (hrsi100 : rsi ≤ 100)
    (hhist : histogram = macdLine - signal) (hprice : 0 < currentPrice)
    (hadx : 0 ≤ adx) :
    ((rsi < 30 ∨ 70 < rsi) → 0 ≤ rsiScore rsi ∧ rsiScore rsi ≤ 100) ∧
    (30 ≤ rsi → rsi ≤ 70 → 95 ≤ rsiScore rsi ∧ rsiScore rsi ≤ 125) ∧
    (0 ≤ macdScore macdLine signal histogram currentPrice ∧
      macdScore macdLine signal histogram currentPrice ≤ 100) ∧
    (0 ≤ smaScore currentPrice sma20 sma50 sma200 ∧
      smaScore currentPrice sma20 sma50 sma200 ≤ 100) ∧
    (upper ≠ lower →
      ∃ q, bbScore currentPrice upper lower = JSNum.fin q ∧ 0 ≤ q ∧ q ≤ 100) ∧
    (upper = lower → currentPrice = lower →
      bbScore currentPrice upper lower = JSNum.nan) ∧
    (0 ≤ stochasticScore k ∧ stochasticScore k ≤ 100) ∧
    (0 ≤ adxScore adx ∧ adxScore adx ≤ 100) ∧
    (0 ≤ volumeScore recentVolume volumeSMA ∧ volumeScore recentVolume volumeSMA ≤ 100) := by
  refine ⟨?_, ?_, ?_, ?_, ?_, ?_, ?_, ?_, ?_⟩
  · intro hband
    unfold rsiScore
    rcases hband with hlo | hhi
    · rw [if_pos hlo]
      constructor <;> linarith
    · rw [if_neg (by linarith), if_pos hhi]
      constructor <;> linarith
  · intro h30 h70
    unfold rsiScore
    rw [if_neg (by linarith), if_neg (by linarith)]
    have ha0 : 0 ≤ |rsi - 50| := abs_nonneg _
    have ha20 : |rsi - 50| ≤ 20 := abs_le.mpr ⟨by linarith, by linarith⟩
    constructor <;> linarith
  · unfold macdScore
    split_ifs with hgt
    · have hnn : 0 ≤ histogram / currentPrice * 10000 := by
        have : 0 ≤ histogram := by rw [hhist]; linarith
        positivity
      have h1 : 0 ≤ min 50 (histogram / currentPrice * 10000) := le_min (by norm_num) hnn
      have h2 : min 50 (histogram / currentPrice * 10000) ≤ 50 := min_le_left _ _
      constructor <;> linarith
    · have hnn : 0 ≤ |histogram / currentPrice| * 10000 := by positivity
      have h1 : 0 ≤ min 50 (|histogram / currentPrice| * 10000) := le_min (by norm_num) hnn
      have h2 : min 50 (|histogram / currentPrice| * 10000) ≤ 50 := min_le_left _ _
      constructor <;> linarith
  · unfold smaScore
    split_ifs <;> norm_num
  · intro hul
    have hne : upper - lower ≠ 0 := sub_ne_zero.mpr hul
    simp only [bbScore, jdiv, if_neg hne, jltB, jgtB, jsub, jmulC, jadd,
      decide_eq_true_eq]
    split_ifs with h1 h2
    · exact ⟨100, rfl, by norm_num, by norm_num⟩
    · exact ⟨0, rfl, le_refl 0, by norm_num⟩
    · push_neg at h1 h2
      refine ⟨50 + (0.5 - (currentPrice - lower) / (upper - lower)) * 100, rfl, ?_, ?_⟩ <;>
        linarith
  · intro hul hcp
    subst hul
    subst hcp
    simp [bbScore, jdiv, jsub, jmulC, jadd, jltB, jgtB]
  · unfold stochasticScore
    split_ifs with h1 h2
    · norm_num
    · norm_num
    · push_neg at h1 h2
      constructor <;> linarith
  · unfold adxScore
    split_ifs with h1
    · have h2 : min 100 (50 + (adx - 25) * 2) ≤ 100 := min_le_left _ _
      have h3 : (0:ℚ) ≤ min 100 (50 + (adx - 25) * 2) := le_min (by norm_num) (by linarith)
      constructor <;> linarith
    · push_neg at h1
      constructor <;> linarith
  · unfold volumeScore
    split_ifs <;> norm_num

/-- Witness for the amended C5 at concrete bundle-consistent inputs. -/
theorem claim_C5_subscore_bounds_witness :
    0 ≤ rsiScore 20 ∧ rsiScore 20 ≤ 100 :=
  (claim_C5_subscore_bounds 20 1 0 1 1 0 0 0 0 0 50 0 0 0
    (by norm_num) (by norm_num) (by norm_num) (by norm_num) (by norm_num)).1
    (Or.inl (by norm_num))

/-- The value `50 + clamp(x, -50, 50)` already lies in [0,100], so the outer
output clamp of `calculateMomentumScore` is the identity on it. -/
theorem clamp0to100_shift50 (x : ℚ) :
    clamp0to100 (50 + min 50 (max (-50) x)) = 50 + min 50 (max (-50) x) := by
  have h1 : (-50 : ℚ) ≤ max (-50) x := le_max_left _ _
  have h2 : min 50 (max (-50) x) ≤ 50 := min_le_left _ _
  have h3 : (-50 : ℚ) ≤ min 50 (max (-50) x) := le_min (by norm_num) h1
  unfold clamp0to100
  rw [min_eq_right (by linarith), max_eq_right (by linarith)]

/-- C6: for a nonempty series, the short-term component of
`calculateMomentumScore` is `50 + clamp(pct·5, -50, 50)` for the percent
change of the last close versus the close at index `length − 20`
(clamped to 0), and the long-term component is `50 + clamp(pct·2, -50, 50)`
versus index `length − 50`. -/
theorem claim_C6_price_momentum (ti : TechnicalIndicators) (pd : List PriceData)
    (h : 1 ≤ pd.length) :
    (calculateMomentumScore ti pd).shortTerm =
      50 + min 50 (max (-50)
        (((pd.getLastD default).close - (pd.getD (pd.length - 20) default).close) /
          (pd.getD (pd.length - 20) default).close * 100 * 5)) ∧
    (calculateMomentumScore ti pd).longTerm =
      50 + min 50 (max (-50)
        (((pd.getLastD default).close - (pd.getD (pd.length - 50) default).close) /
          (pd.getD (pd.length - 50) default).close * 100 * 2)) :=
  ⟨clamp0to100_shift50 _, clamp0to100_shift50 _⟩

/-- Witness for C6 at a concrete 50-bar series. -/
theorem claim_C6_price_momentum_witness :
    (calculateMomentumScore tiZero pdFlat50).shortTerm =
      50 + min 50 (max (-50)
        (((pdFlat50.getLastD default).close -
            (pdFlat50.getD (pdFlat50.length - 20) default).close) /
          (pdFlat50.getD (pdFlat50.length - 20) default).close * 100 * 5)) :=
  (claim_C6_price_momentum tiZero pdFlat50 (by decide)).1

/-- C7: with the bundle's EMA fields computed from the series, the
moving-average crossover of `analyzeTrend` is `bullish` exactly when
EMA12 > EMA26 on the full series while EMA12 ≤ EMA26 on the series with
its last bar dropped, `bearish` for the mirror condition, and `none`
otherwise. -/
theorem claim_C7_crossover (ti : TechnicalIndicators) (pd : List PriceData)
    (h2 : 2 ≤ pd.length)
    (he12 : ti.ema.ema12 = calculateEMA (pd.map PriceData.close) 12)
    (he26 : ti.ema.ema26 = calculateEMA (pd.map PriceData.close) 26) :
    ((analyzeTrend ti pd).movingAverageCrossover = MACrossover.bullish ↔
      (calculateEMA (pd.map PriceData.close) 12 > calculateEMA (pd.map PriceData.close) 26 ∧
        calculateEMA (pd.dropLast.map PriceData.close) 12 ≤
          calculateEMA (pd.dropLast.map PriceData.close) 26)) ∧
    ((analyzeTrend ti pd).movingAverageCrossover = MACrossover.bearish ↔
      (calculateEMA (pd.map PriceData.close) 12 < calculateEMA (pd.map PriceData.close) 26 ∧
        calculateEMA (pd.dropLast.map PriceData.close) 12 ≥
          calculateEMA (pd.dropLast.map PriceData.close) 26)) ∧
    ((analyzeTrend ti pd).movingAverageCrossover = MACrossover.none ↔
      (¬(calculateEMA (pd.map PriceData.close) 12 > calculateEMA (pd.map PriceData.close) 26 ∧
          calculateEMA (pd.dropLast.map PriceData.close) 12 ≤
            calculateEMA (pd.dropLast.map PriceData.close) 26) ∧
       ¬(calculateEMA (pd.map PriceData.close) 12 < calculateEMA (pd.map PriceData.close) 26 ∧
          calculateEMA (pd.dropLast.map PriceData.close) 12 ≥
            calculateEMA (pd.dropLast.map PriceData.close) 26))) := by
  have hx : (analyzeTrend ti pd).movingAverageCrossover =
      (if calculateEMA (pd.map PriceData.close) 12 > calculateEMA (pd.map PriceData.close) 26 ∧
          calculateEMA (pd.dropLast.map PriceData.close) 12 ≤
            calculateEMA (pd.dropLast.map PriceData.close) 26 then MACrossover.bullish
       else if calculateEMA (pd.map PriceData.close) 12 < calculateEMA (pd.map PriceData.close) 26 ∧
          calculateEMA (pd.dropLast.map PriceData.close) 12 ≥
            calculateEMA (pd.dropLast.map PriceData.close) 26 then MACrossover.bearish
       else MACrossover.none) := by
    simp only [analyzeTrend, he12, he26]
    rw [if_pos h2]
  rw [hx]
  split_ifs with hc1 hc2 <;> refine ⟨?_, ?_, ?_⟩ <;> simp_all <;> intros <;> linarith

/-- Witness for C7: a series of 26 flat bars then a jump, where EMA12
crosses EMA26 from below-or-equal to above exactly at the last bar, is
reported as a bullish crossover. -/
theorem claim_C7_crossover_witness :
    (analyzeTrend tiCross pdCross).movingAverageCrossover = MACrossover.bullish :=
  (claim_C7_crossover tiCross pdCross (by norm_num [pdCross]) rfl rfl).1.mpr
    (by norm_num [pdCross, calculateEMA, listMean, List.replicate])

/-- C8: on a series of at least 40 bars with a nonzero older-window
average, `analyzeFundamentals` classifies the volume trend by the
percent change of the trailing 20-bar average volume versus the prior
20-bar average — increasing above 10, decreasing below −10, stable
otherwise — and reports the recent 20-bar average as `averageVolume`. -/
theorem claim_C8_volume_trend (pd : List PriceData) (mc pe pb : Option ℚ)
    (h : 40 ≤ pd.length) (h0 : priorAvgVolume pd ≠ 0) :
    ((analyzeFundamentals pd mc pe pb).volumeTrend = VolumeTrend.increasing ↔
      volumeChangePct pd > 10) ∧
    ((analyzeFundamentals pd mc pe pb).volumeTrend = VolumeTrend.decreasing ↔
      volumeChangePct pd < -10) ∧
    ((analyzeFundamentals pd mc pe pb).volumeTrend = VolumeTrend.stable ↔
      ¬volumeChangePct pd > 10 ∧ ¬volumeChangePct pd < -10) ∧
    (analyzeFundamentals pd mc pe pb).averageVolume = JSNum.fin (trailingAvgVolume pd) := by
  have hlen : (pd.map PriceData.volume).length = pd.length := List.length_map _ _
  have htake : (pd.length - 20) - (pd.length - 40) = 20 := by omega
  have hrlen : ((pd.map PriceData.volume).drop (pd.length - 20)).length = 20 := by
    rw [List.length_drop, hlen]
    omega
  have holen : (((pd.map PriceData.volume).drop (pd.length - 40)).take 20).length = 20 := by
    rw [List.length_take, List.length_drop, hlen]
    omega
  have havgR : avgJS ((pd.map PriceData.volume).drop (pd.length - 20)) =
      JSNum.fin (trailingAvgVolume pd) := by
    unfold avgJS trailingAvgVolume
    rw [if_neg (by simp [← List.length_eq_zero, hrlen]), hrlen]
    norm_num
  have havgO : avgJS (((pd.map PriceData.volume).drop (pd.length - 40)).take 20) =
      JSNum.fin (priorAvgVolume pd) := by
    unfold avgJS priorAvgVolume
    rw [if_neg (by simp [← List.length_eq_zero, holen]), holen]
    norm_num
  have hpct : (trailingAvgVolume pd - priorAvgVolume pd) / priorAvgVolume pd * 100 =
      volumeChangePct pd := rfl
  have hx : analyzeFundamentals pd mc pe pb =
      { peRatio := pe, marketCap := mc, priceToBook := pb,
        volumeTrend :=
          if jgtB (JSNum.fin (volumeChangePct pd)) 10 then VolumeTrend.increasing
          else if jltB (JSNum.fin (volumeChangePct pd)) (-10) then VolumeTrend.decreasing
          else VolumeTrend.stable,
        averageVolume := JSNum.fin (trailingAvgVolume pd) } := by
    simp only [analyzeFundamentals]
    rw [htake, havgR, havgO]
    simp only [jsub, jdiv, if_neg h0, jmulC, hpct]
  rw [hx]
  simp only [jgtB, jltB]
  by_cases hgt : volumeChangePct pd > 10
  · simp [hgt]
    linarith
  · by_cases hlt : volumeChangePct pd < -10 <;> simp [hgt, hlt]

/-- Witness for C8 at a concrete 40-bar series whose older window
averages 10 and recent window averages 100. -/
theorem claim_C8_volume_trend_witness :
    (analyzeFundamentals pdVol40 none none none).volumeTrend = VolumeTrend.increasing :=
  (claim_C8_volume_trend pdVol40 none none none (by norm_num [pdVol40])
    (by norm_num [priorAvgVolume, pdVol40, List.replicate])).1.mpr
    (by norm_num [volumeChangePct, trailingAvgVolume, priorAvgVolume, pdVol40, List.replicate])

/-- C9: the batch orchestration loop returns exactly the successful
analyses in watch-list order: a failing symbol is excluded while every
other symbol's result is still produced, so no single failure aborts
the batch. -/
theorem claim_C9_batch_isolation {σ α ε : Type} (f : σ → Except ε α) (syms : List σ) :
    batchAnalyze f syms = syms.filterMap (fun s => (f s).toOption) ∧
    (∀ s ∈ syms, ∀ a, f s = Except.ok a → a ∈ batchAnalyze f syms) ∧
    (∀ x ∈ batchAnalyze f syms, ∃ s ∈ syms, f s = Except.ok x) := by
  have hmain : batchAnalyze f syms = syms.filterMap (fun s => (f s).toOption) := by
    induction syms with
    | nil => rfl
    | cons s rest ih =>
      cases hf : f s <;> simp [batchAnalyze, hf, ih, Except.toOption]
  refine ⟨hmain, ?_, ?_⟩
  · intro s hs a ha
    rw [hmain]
    exact List.mem_filterMap.mpr ⟨s, hs, by rw [ha]; rfl⟩
  · intro x hx
    rw [hmain] at hx
    obtain ⟨s, hs, hfs⟩ := List.mem_filterMap.mp hx
    refine ⟨s, hs, ?_⟩
    cases hf : f s with
    | error e => rw [hf] at hfs; cases hfs
    | ok a =>
      rw [hf] at hfs
      cases hfs
      rfl

/-- Witness for C9: symbol 1 fails, symbols 0 and 2 still produce their
results. -/
theorem claim_C9_batch_isolation_witness :
    batchAnalyze probeAnalysis [0, 1, 2] = [0, 20] ∧
    20 ∈ batchAnalyze probeAnalysis [0, 1, 2] :=
  ⟨rfl, (claim_C9_batch_isolation probeAnalysis [0, 1, 2]).2.1 2 (by simp) 20 rfl⟩

/-- C10: with at most 20 bars the older volume window of
`analyzeFundamentals` is empty, its average is the indeterminate `0/0`
(NaN), both threshold comparisons are false, and the function returns
`stable` without raising. -/
theorem claim_C10_short_series_stable (pd : List PriceData) (mc pe pb : Option ℚ)
    (h : pd.length ≤ 20) :
    avgJS (((pd.map PriceData.volume).drop (pd.length - 40)).take
      ((pd.length - 20) - (pd.length - 40))) = JSNum.nan ∧
    (analyzeFundamentals pd mc pe pb).volumeTrend = VolumeTrend.stable := by
  have htake0 : (pd.length - 20) - (pd.length - 40) = 0 := by omega
  have hnan : avgJS (((pd.map PriceData.volume).drop (pd.length - 40)).take
      ((pd.length - 20) - (pd.length - 40))) = JSNum.nan := by
    rw [htake0, List.take_zero]
    rfl
  refine ⟨hnan, ?_⟩
  simp only [analyzeFundamentals]
  rw [htake0, List.take_zero]
  rcases havg : avgJS ((pd.map PriceData.volume).drop (pd.length - 20)) with q | _ | _ | _ <;>
    simp [havg, avgJS, jsub, jdiv, jmulC, jgtB, jltB]

/-- Witness for C10 at a concrete 5-bar series. -/
theorem claim_C10_short_series_stable_witness :
    (analyzeFundamentals pdShort5 none none none).volumeTrend = VolumeTrend.stable :=
  (claim_C10_short_series_stable pdShort5 none none none (by decide)).2

end AssetRec
